import Mathlib

/-!
Verification of the ERC-4337 provider/signer pipeline
(`src.ts/providers/provider-erc4337.ts`).

The development shallowly embeds the data model and the operations of the
pipeline: `UserOperation` and its `toJSON` serialization, the estimator
`estimateUserOperationGas`, the signer operations (`populateUserOperation`,
`estimateGas`, `signUserOperation`, `sendTransaction`), and the settlement
listener `UserOperationEventListener`.  Asynchronous calls to external
collaborators (wallet delegate, bundler RPC, execution-layer RPC) are
embedded as pure functions supplied through an environment record, and the
listener's callbacks are embedded as state-transition functions whose
outputs record, in order, every invocation of the promise's
`resolve`/`reject` functions.
-/

namespace Erc4337

/-! ## JSON values and hex serialization -/

/-- A JSON value as produced by `UserOperation.toJSON`: either the JSON
`null` or a string.  (All non-null values the serializer emits are
strings.) -/
inductive JsonValue where
  | jnull
  | jstr (s : String)
  deriving DecidableEq, Repr

/-- Lower-case hexadecimal digit for `d < 16`, as produced by JavaScript's
`BigInt.prototype.toString(16)` ('0'-'9' then 'a'-'f'). -/
def hexDigitChar (d : Nat) : Char :=
  if d < 10 then Char.ofNat (48 + d) else Char.ofNat (87 + d)

/-- The digit list of `n` in base 16, most significant digit first, with no
leading zeros (and `['0']` for zero) — the digits of JavaScript's
`value.toString(16)` for a non-negative bigint. -/
def toHexDigits (n : Nat) : List Char :=
  if _h : n < 16 then [hexDigitChar n]
  else toHexDigits (n / 16) ++ [hexDigitChar (n % 16)]
decreasing_by exact Nat.div_lt_self (by omega) (by omega)

/-- `value.toString(16)` for a non-negative bigint. -/
def natToHexString (n : Nat) : String :=
  String.mk (toHexDigits n)

/-- `toJson` from `provider-erc4337.ts`: `null` maps to JSON null, a bigint
maps to the string `0x` + hexadecimal digits.  (The source also passes
strings through unchanged to tolerate double `toJSON` calls; in this typed
embedding the argument is always a bigint-or-null, so that branch is not
reachable.) -/
def toJson (value : Option Nat) : JsonValue :=
  match value with
  | none => JsonValue.jnull
  | some n => JsonValue.jstr ("0x" ++ natToHexString n)

/-- Numeric value of a hexadecimal digit character, accepting both cases. -/
def hexCharVal (c : Char) : Option Nat :=
  if '0' ≤ c ∧ c ≤ '9' then some (c.toNat - 48)
  else if 'a' ≤ c ∧ c ≤ 'f' then some (c.toNat - 87)
  else if 'A' ≤ c ∧ c ≤ 'F' then some (c.toNat - 55)
  else none

/-- Accumulating hexadecimal parser over a digit list. -/
def parseHexAux : Nat → List Char → Option Nat
  | acc, [] => some acc
  | acc, c :: cs =>
    match hexCharVal c with
    | some v => parseHexAux (acc * 16 + v) cs
    | none => none

/-- Modelled from the spec: the repository parses serialized numeric fields
back to integers with `toBigInt` (from `utils/maths.js`, which is not part
of the provided sources); on a `0x`-prefixed string it interprets the
remaining characters as hexadecimal digits.  -/
def parseHexString (s : String) : Option Nat :=
  match s.data with
  | '0' :: 'x' :: rest => if rest.isEmpty then none else parseHexAux 0 rest
  | _ => none

theorem hexCharVal_hexDigitChar : ∀ d < 16, hexCharVal (hexDigitChar d) = some d := by
  decide

theorem parseHexAux_append (cs ds : List Char) (acc : Nat) :
    parseHexAux acc (cs ++ ds) = (parseHexAux acc cs).bind (fun b => parseHexAux b ds) := by
  induction cs generalizing acc with
  | nil => rfl
  | cons c cs ih =>
    rcases h : hexCharVal c with _ | v
    · simp [parseHexAux, h]
    · simp [parseHexAux, h, ih]

theorem toHexDigits_ne_nil (n : Nat) : toHexDigits n ≠ [] := by
  rw [toHexDigits]
  split <;> simp

theorem parseHexAux_toHexDigits (n : Nat) : parseHexAux 0 (toHexDigits n) = some n := by
  induction n using Nat.strong_induction_on with
  | _ n ih =>
    by_cases h : n < 16
    · rw [toHexDigits]
      simp only [h, dif_pos]
      simp [parseHexAux, hexCharVal_hexDigitChar n h]
    · rw [toHexDigits]
      simp only [h, dif_neg, not_false_iff]
      rw [parseHexAux_append, ih (n / 16) (Nat.div_lt_self (by omega) (by omega))]
      have hd : hexCharVal (hexDigitChar (n % 16)) = some (n % 16) :=
        hexCharVal_hexDigitChar _ (Nat.mod_lt _ (by omega))
      simp only [Option.bind_some, parseHexAux, hd]
      exact congrArg some (by omega)

theorem parseHexString_natToHexString (n : Nat) :
    parseHexString ("0x" ++ natToHexString n) = some n := by
  have hdata : ("0x" ++ natToHexString n).data = '0' :: 'x' :: toHexDigits n := rfl
  rw [parseHexString, hdata]
  have hne : (toHexDigits n).isEmpty = false := by
    cases h : toHexDigits n with
    | nil => exact absurd h (toHexDigits_ne_nil n)
    | cons c cs => rfl
  simp [hne, parseHexAux_toHexDigits]

/-! ## The UserOperation entity and its serialization -/

/-- The `UserOperation` entity.  Required fields follow
`UserOperationInterface`; the optional gas-limit, paymaster and signature
fields are `Option`s (`none` models an absent/undefined field on the
instance).  Machine integers of the source are `bigint`s restricted by the
protocol to the unsigned-256-bit range; they are embedded as `Nat` (no
arithmetic in the pipeline can overflow or go negative). -/
structure UserOperation where
  sender : String
  nonce : Nat
  initCode : String
  callData : String
  maxFeePerGas : Nat
  maxPriorityFeePerGas : Nat
  callGasLimit : Option Nat := none
  verificationGasLimit : Option Nat := none
  preVerificationGas : Option Nat := none
  paymasterAndData : Option String := none
  signature : Option String := none
  deriving DecidableEq, Repr

/-- `UserOperation.toJSON`: the object literal `{ ...this, nonce: toJson(nonce),
... }`.  The six numeric keys are written explicitly by the literal, so they
are always present (`toJson` maps an unset field to JSON null).  The byte
fields are contributed by the spread of the instance's own properties:
they are copied verbatim, and a field that was never assigned on the
instance contributes no key at all (the constructor `Object.assign`s only
the keys present in its argument), so an unset `paymasterAndData` or
`signature` is simply absent from the result. -/
def UserOperation.toJSON (op : UserOperation) : List (String × JsonValue) :=
  [("sender", JsonValue.jstr op.sender),
   ("nonce", toJson (some op.nonce)),
   ("initCode", JsonValue.jstr op.initCode),
   ("callData", JsonValue.jstr op.callData),
   ("maxFeePerGas", toJson (some op.maxFeePerGas)),
   ("maxPriorityFeePerGas", toJson (some op.maxPriorityFeePerGas)),
   ("callGasLimit", toJson op.callGasLimit),
   ("verificationGasLimit", toJson op.verificationGasLimit),
   ("preVerificationGas", toJson op.preVerificationGas)]
  ++ (match op.paymasterAndData with
      | some s => [("paymasterAndData", JsonValue.jstr s)]
      | none => [])
  ++ (match op.signature with
      | some s => [("signature", JsonValue.jstr s)]
      | none => [])

/-- Value of the key `k` in a serialized JSON object (`none`: the key is
absent from the object). -/
def jsonLookup (obj : List (String × JsonValue)) (k : String) : Option JsonValue :=
  (obj.find? (fun e => e.fst == k)).map (fun e => e.snd)

/-- Set (or add) the key `k` in a serialized JSON object, as
`Object.assign(obj, { k: v })` does. -/
def jsonSet (obj : List (String × JsonValue)) (k : String) (v : JsonValue) :
    List (String × JsonValue) :=
  if obj.any (fun e => e.fst == k) then
    obj.map (fun e => if e.fst == k then (k, v) else e)
  else obj ++ [(k, v)]

/-! ## Errors and external collaborators -/

/-- Error taxonomy of the pipeline.  Each constructor corresponds to one
`assert`/`throw` site of the source (all surfaced as
`UNSUPPORTED_OPERATION` or argument errors there):
`ambiguousEntryPoint` = 'bundler supports multiple EntryPoints - must
specify one to use'; `noEntryPoint` = 'bundler reported no supported
EntryPoints - use different bundler URL'; `unsupportedEntryPoint` = 'the
EntryPoint at ... is not supported by this bundler'; `alreadySigned` =
'passed UserOperation already signed'; `notSigned` = 'passed UserOperation
is not signed'; `addressMismatch` = 'transaction from mismatch'; `noTo` =
the `throw new Error('no to')` in `encodeCalldata`. -/
inductive Erc4337Error where
  | ambiguousEntryPoint
  | noEntryPoint
  | unsupportedEntryPoint
  | alreadySigned
  | notSigned
  | addressMismatch
  | noTo
  deriving DecidableEq, Repr

/-- Argument of the delegate's `encodeCalldata`. -/
structure UserOperationCalldata where
  «to» : String
  data : Option String
  value : Option String
  deriving DecidableEq, Repr

/-- Bundler response of `eth_estimateUserOperationGas`
(`UserOperationGasEstimation`): `verificationGasLimit` and the
Stackup-named `verificationGas` are both optional in the source
interface. -/
structure UserOperationGasEstimation where
  preVerificationGas : Nat
  verificationGasLimit : Option Nat
  verificationGas : Option Nat
  callGasLimit : Nat
  deriving DecidableEq, Repr

/-- The wallet delegate (`Erc4337WalletInfo`): every capability is embedded
as a pure function.  `getSignatureForEstimateGas` receives the draft copy,
which in the source is a `UserOperation` rebuilt from serialized JSON, so
it is passed here as the serialized object. -/
structure Erc4337WalletInfo where
  getAddress : String
  getInitCode : String
  getNonce : Nat
  encodeCalldata : UserOperationCalldata → String
  getSignatureForEstimateGas : List (String × JsonValue) → String
  signUserOp : UserOperation → String
  getPaymasterAndData : UserOperation → String
  getPaymasterAndDataForEstimateGas : UserOperation → String

/-- The provider-side environment: the wallet delegate, the cached
entry-point registry reported by the bundler (`supportedEntryPoints`), the
execution-layer bytecode query (`getCode`), the fee-market suggestion
(`feeData` = suggested maxFeePerGas, maxPriorityFeePerGas), and the
bundler's estimation method. -/
structure ProviderEnv where
  walletInfo : Erc4337WalletInfo
  supportedEntryPoints : List String
  getCode : String → String
  feeData : Nat × Nat
  bundlerEstimate : List (String × JsonValue) → String → UserOperationGasEstimation

/-- `resolveAddress` is an out-of-scope library collaborator
(`address/checks.js`): on an already-literal address string it returns the
same address (up to checksum casing, which every comparison in this file
erases by lower-casing both sides); it is embedded as the identity. -/
def resolveAddress (a : String) : String := a

/-- JavaScript's `toLowerCase()` on the basic-latin strings (hex addresses)
the pipeline compares: lower-case every character. -/
def toLowerString (s : String) : String := String.mk (s.data.map Char.toLower)

/-! ## The estimator (`Erc4337Provider.estimateUserOperationGas`) -/

/-- `verifyEntryPointSupported`: case-insensitive membership of the chosen
entry point in the bundler-reported registry. -/
def verifyEntryPointSupported (registry : List String) (entryPoint : String) :
    Except Erc4337Error Unit :=
  if (registry.map toLowerString).contains (toLowerString entryPoint) then Except.ok ()
  else Except.error Erc4337Error.unsupportedEntryPoint

/-- Entry-point resolution at the head of `estimateUserOperationGas`
(source lines 199-210): an explicit argument is taken as-is; otherwise the
registry must have length exactly one (the 'bundler supports multiple
EntryPoints' assert fires for every other length — including length zero),
and the subsequent 'bundler reported no supported EntryPoints' assert
guards the extracted element against being absent. -/
def resolveEntryPoint (registry : List String) (entryPointArg : Option String) :
    Except Erc4337Error String :=
  match entryPointArg with
  | some e => Except.ok e
  | none =>
    if registry.length ≠ 1 then Except.error Erc4337Error.ambiguousEntryPoint
    else
      match registry.head? with
      | some e => Except.ok e
      | none => Except.error Erc4337Error.noEntryPoint

/-- Result of `Erc4337Provider.estimateUserOperationGas`: the final state
of the caller's `UserOperation` (the source mutates it in place), the
draft copy and the entry-point address sent to the bundler, and the
bundler's reported estimation. -/
structure EstimateResult where
  userOperation : UserOperation
  draft : List (String × JsonValue)
  entryPoint : String
  estimation : UserOperationGasEstimation
  deriving Repr

/-- `Erc4337Provider.estimateUserOperationGas`.  Resolves and verifies the
entry point, overwrites the caller operation's three gas-limit fields with
the placeholder values `1000000n` / `0n` / `1000000n`, obtains estimate-time
paymaster data when none is set, builds the draft copy (a `UserOperation`
rebuilt from the `toJSON` output with `paymasterAndData` overridden), signs
the draft with the delegate's estimate-time signature, and submits
`[userOpCopy, entryPoint]` to the bundler's estimation method. -/
def estimateUserOperationGas (env : ProviderEnv) (userOperation : UserOperation)
    (entryPointArg : Option String) : Except Erc4337Error EstimateResult :=
  match resolveEntryPoint env.supportedEntryPoints entryPointArg with
  | Except.error e => Except.error e
  | Except.ok entryPoint =>
    match verifyEntryPointSupported env.supportedEntryPoints entryPoint with
    | Except.error e => Except.error e
    | Except.ok _ =>
      let userOperation := { userOperation with
        callGasLimit := some 1000000,
        preVerificationGas := some 0,
        verificationGasLimit := some 1000000 }
      let paymasterAndData :=
        match userOperation.paymasterAndData with
        | some p => p
        | none => env.walletInfo.getPaymasterAndDataForEstimateGas userOperation
      let userOpCopy := jsonSet userOperation.toJSON "paymasterAndData" (JsonValue.jstr paymasterAndData)
      let userOpCopy := jsonSet userOpCopy "signature"
        (JsonValue.jstr (env.walletInfo.getSignatureForEstimateGas userOpCopy))
      Except.ok ⟨userOperation, userOpCopy, entryPoint, env.bundlerEstimate userOpCopy entryPoint⟩

/-! ## The signer (`Erc4337Signer`) -/

/-- The transaction request fields the pipeline reads. -/
structure TransactionRequest where
  «to» : Option String := none
  «from» : Option String := none
  data : Option String := none
  value : Option Nat := none
  maxFeePerGas : Option Nat := none
  maxPriorityFeePerGas : Option Nat := none
  gasPrice : Option Nat := none
  deriving DecidableEq, Repr

/-- `Erc4337Signer.encodeCalldata`: throws 'no to' when the request has no
destination, otherwise delegates to the wallet with the resolved
destination, the request data and the stringified value. -/
def encodeCalldata (env : ProviderEnv) (tx : TransactionRequest) :
    Except Erc4337Error String :=
  match tx.to with
  | none => Except.error Erc4337Error.noTo
  | some t =>
    Except.ok (env.walletInfo.encodeCalldata
      ⟨resolveAddress t, tx.data, tx.value.map toString⟩)

/-- `Erc4337Signer.isCodeDeployed`: the account is deployed when the
execution layer reports non-empty bytecode at the delegate address.  (The
source caches the answer for the signer's lifetime; the cache is
transparent in this pure embedding.) -/
def isCodeDeployed (env : ProviderEnv) : Bool :=
  let code := env.getCode env.walletInfo.getAddress
  ¬ (code = "" ∨ code = "0x")

/-- `Erc4337Signer.getInitCode`: empty (`'0x'`) once deployed, else the
delegate-supplied init code. -/
def getInitCode (env : ProviderEnv) : String :=
  if isCodeDeployed env then "0x" else env.walletInfo.getInitCode

/-- `Erc4337Signer.populateUserOperation`.  Encodes calldata, fetches init
code / nonce / sender, resolves the fee fields (explicit pair, else legacy
gas price for both, else network fee data), constructs the operation, then
— the gas-limit fields of a freshly constructed operation being unset —
invokes the estimator and applies its reported quantities (the
Stackup-named `verificationGas` field is the one applied to
`verificationGasLimit`), and finally stores the delegate's paymaster
data. -/
def populateUserOperation (env : ProviderEnv) (tx : TransactionRequest) :
    Except Erc4337Error UserOperation :=
  match encodeCalldata env tx with
  | Except.error e => Except.error e
  | Except.ok callData =>
    let initCode := getInitCode env
    let nonce := env.walletInfo.getNonce
    let sender := env.walletInfo.getAddress
    let (maxFeePerGas, maxPriorityFeePerGas) :=
      match tx.maxFeePerGas, tx.maxPriorityFeePerGas with
      | some mf, some mp => (mf, mp)
      | _, _ =>
        match tx.gasPrice with
        | some gp => (gp, gp)
        | none => env.feeData
    let userOperation : UserOperation :=
      { callData, initCode, nonce, sender, maxFeePerGas, maxPriorityFeePerGas }
    let afterGas : Except Erc4337Error UserOperation :=
      if userOperation.callGasLimit = none ∨ userOperation.preVerificationGas = none ∨
          userOperation.verificationGasLimit = none then
        match estimateUserOperationGas env userOperation none with
        | Except.error e => Except.error e
        | Except.ok r =>
          Except.ok { r.userOperation with
            callGasLimit := some r.estimation.callGasLimit,
            preVerificationGas := some r.estimation.preVerificationGas,
            verificationGasLimit := r.estimation.verificationGas }
      else Except.ok userOperation
    match afterGas with
    | Except.error e => Except.error e
    | Except.ok userOperation =>
      Except.ok { userOperation with
        paymasterAndData := some (env.walletInfo.getPaymasterAndData userOperation) }

/-- `Erc4337Signer.estimateGas`: when the request carries an explicit
sender, it must equal the delegate-controlled address under case-insensitive
comparison (else `assertArgument` fails with 'transaction from mismatch');
then the request is populated and estimated, returning only the inner call
gas limit. -/
def signerEstimateGas (env : ProviderEnv) (tx : TransactionRequest) :
    Except Erc4337Error Nat :=
  let address := env.walletInfo.getAddress
  let fromCheck : Except Erc4337Error Unit :=
    match tx.from with
    | some f =>
      if toLowerString (resolveAddress f) = toLowerString address then Except.ok ()
      else Except.error Erc4337Error.addressMismatch
    | none => Except.ok ()
  match fromCheck with
  | Except.error e => Except.error e
  | Except.ok _ =>
    match populateUserOperation env tx with
    | Except.error e => Except.error e
    | Except.ok userOperation =>
      match estimateUserOperationGas env userOperation none with
      | Except.error e => Except.error e
      | Except.ok r => Except.ok r.estimation.callGasLimit

/-- `Erc4337Signer.signUserOperation`: asserts the operation is not yet
signed ('passed UserOperation already signed' otherwise) and returns the
delegate's signature.  It does not itself store the signature on the
operation — its caller does. -/
def signUserOperation (w : Erc4337WalletInfo) (userOperation : UserOperation) :
    Except Erc4337Error String :=
  if userOperation.signature = none then Except.ok (w.signUserOp userOperation)
  else Except.error Erc4337Error.alreadySigned

/-- `Erc4337Signer.sendUserOperation`: asserts the operation is signed and
dispatches its serialized form plus the entry-point address to the
bundler.  The dispatched payload is returned. -/
def sendUserOperation (userOperation : UserOperation) (entryPoint : Option String) :
    Except Erc4337Error (List (String × JsonValue) × Option String) :=
  if userOperation.signature = none then Except.error Erc4337Error.notSigned
  else Except.ok (userOperation.toJSON, entryPoint)

/-- Result of `sendTransaction`: the operation as dispatched, the
serialized payload, the entry point used (the first registry entry, absent
when the registry is empty), and the number of times the wallet delegate's
`signUserOp` capability was invoked during the send. -/
structure SendResult where
  sentOperation : UserOperation
  payload : List (String × JsonValue)
  entryPoint : Option String
  signUserOpCalls : Nat
  deriving Repr

/-- `Erc4337Signer.sendTransaction`: populate, perform the sign step
(`userOperation.signature = await this.signUserOperation(userOperation)` —
this is the single delegate `signUserOp` invocation of the send, recorded
in `signUserOpCalls`), pick the first bundler-supported entry point, and
dispatch. -/
def sendTransaction (env : ProviderEnv) (tx : TransactionRequest) :
    Except Erc4337Error SendResult :=
  match populateUserOperation env tx with
  | Except.error e => Except.error e
  | Except.ok userOperation =>
    match signUserOperation env.walletInfo userOperation with
    | Except.error e => Except.error e
    | Except.ok sig =>
      let userOperation := { userOperation with signature := some sig }
      let entryPoint := env.supportedEntryPoints.head?
      match sendUserOperation userOperation entryPoint with
      | Except.error e => Except.error e
      | Except.ok (payload, ep) => Except.ok ⟨userOperation, payload, ep, 1⟩

/-! ## The settlement listener (`UserOperationEventListener`)

The listener coordinates three producers racing to settle one promise: the
historical query task scheduled by `start`, the live event subscription,
and the timeout timer armed by the constructor.  Each handler is embedded
as a function from the listener's bookkeeping state to a `StepOut`: the new
state, the ordered list of `resolve`/`reject` invocations the handler
performed, and an exception escaping it (a `this.entryPoint!` dereference
of a null entry point).  JavaScript promise semantics are embedded by
`settleOnce`/`applyActions`: the first `resolve`/`reject` invocation
determines the outcome and every later one is a no-op on the promise — but
it is still an invocation, visible in the `acts` trace. -/

/-- An execution-layer transaction receipt (opaque payload; the fields the
listener reads). -/
structure TransactionReceipt where
  transactionHash : String
  blockHash : String
  deriving DecidableEq, Repr

/-- A `UserOperationEvent` log: `hasArgs` models `event.args != null`, the
remaining fields are the event's decoded arguments, and `receipt` is the
result of `event.getTransactionReceipt()`. -/
structure EventLog where
  hasArgs : Bool
  userOpHash : String
  sender : String
  nonce : Nat
  success : Bool
  receipt : TransactionReceipt
  deriving DecidableEq, Repr

/-- A `UserOperationRevertReason` log. -/
structure RevertReasonEvent where
  revertReason : String
  deriving DecidableEq, Repr

/-- The entry-point contract handle: the two event queries the listener
performs.  `queryUserOperationEvent` is
`queryFilter(filters.UserOperationEvent(userOpHash), 'latest')`;
`queryRevertReason` is
`queryFilter(filters.UserOperationRevertReason(userOpHash, sender),
receipt.blockHash)`. -/
structure EntryPointContract where
  queryUserOperationEvent : String → List EventLog
  queryRevertReason : String → String → String → List RevertReasonEvent

/-- The listener's construction parameters (entry point may be null — as it
is on the `getTransactionReceipt` path). -/
structure UserOperationEventListener where
  entryPoint : Option EntryPointContract
  sender : String
  userOpHash : String
  nonce : Option Nat := none
  timeout : Option Nat := none

/-- The listener's mutable bookkeeping: the `resolved` field the source
maintains (set on resolution — and never consulted), whether the live
`once` subscription is attached, and whether the constructor's timeout is
still armed.  The source contains no `clearTimeout`, so no handler ever
disarms the timer; only its own firing does. -/
structure ListenerState where
  resolved : Bool := false
  listenerAttached : Bool := false
  timerArmed : Bool := true
  deriving DecidableEq, Repr

/-- One invocation of the promise's `resolve` or `reject` function. -/
inductive SettleAction where
  | resolveReceipt (r : TransactionReceipt)
  | rejectError (msg : String)
  deriving DecidableEq, Repr

/-- Result of running one listener handler: the new bookkeeping state, the
ordered `resolve`/`reject` invocations it made, and an exception that
escaped it (if any). -/
structure StepOut where
  state : ListenerState
  acts : List SettleAction
  thrown : Option String := none

/-- Exception message of a `this.entryPoint!` dereference when the entry
point is null. -/
def nullEntryPointError : String := "TypeError: null entryPoint"

/-- `UserOperationEventListener.stop`: `this.entryPoint?.off(...)` —
detaches the live listener; a no-op on a null entry point. -/
def stop (l : UserOperationEventListener) (s : ListenerState) : ListenerState :=
  match l.entryPoint with
  | some _ => { s with listenerAttached := false }
  | none => s

/-- `UserOperationEventListener.extractFailureReason`: query the
revert-reason events keyed by operation hash and sender, scoped to the
receipt's block; when the first result is present, invoke `reject` with
'UserOp failed with reason: ' + its reason, and otherwise do nothing.
(The `0x08c379a0` decode branch of the source is commented out and leaves
the message unchanged.)  Returns the `reject` invocations performed plus a
possible null-dereference exception. -/
def extractFailureReason (l : UserOperationEventListener) (receipt : TransactionReceipt) :
    List SettleAction × Option String :=
  match l.entryPoint with
  | none => ([], some nullEntryPointError)
  | some ep =>
    match (ep.queryRevertReason l.userOpHash l.sender receipt.blockHash).head? with
    | some ev => ([SettleAction.rejectError ("UserOp failed with reason: " ++ ev.revertReason)], none)
    | none => ([], none)

/-- `UserOperationEventListener.listenerCallback`: return silently when the
event has no args or carries a different operation hash; otherwise fetch
the receipt, run `extractFailureReason` when the event's success flag is
false, then `stop()`, invoke `resolve(receipt)` and set the `resolved`
flag.  Note that the source runs the final `stop`/`resolve` sequence even
when `extractFailureReason` already invoked `reject`. -/
def listenerCallback (l : UserOperationEventListener) (s : ListenerState) (event : EventLog) :
    StepOut :=
  if event.hasArgs = false then ⟨s, [], none⟩
  else if event.userOpHash ≠ l.userOpHash then ⟨s, [], none⟩
  else
    let receipt := event.receipt
    let (failActs, thrown) :=
      if event.success then ([], none) else extractFailureReason l receipt
    match thrown with
    | some e => ⟨s, failActs, some e⟩
    | none =>
      let s := stop l s
      ⟨{ s with resolved := true }, failActs ++ [SettleAction.resolveReceipt receipt], none⟩

/-- The constructor's timeout handler: `this.stop()` then
`this.reject(new Error('Timed out'))`.  It runs unconditionally when the
timer fires — the source neither clears the timer on resolution nor checks
the `resolved` flag here. -/
def timerFired (l : UserOperationEventListener) (s : ListenerState) : StepOut :=
  ⟨{ stop l s with timerArmed := false }, [SettleAction.rejectError "Timed out"], none⟩

/-- The synchronous body of `UserOperationEventListener.start`: building
the event filter dereferences `this.entryPoint!`, throwing on a null entry
point; otherwise it only schedules the query task. -/
def startSync (l : UserOperationEventListener) (s : ListenerState) : StepOut :=
  match l.entryPoint with
  | none => ⟨s, [], some nullEntryPointError⟩
  | some _ => ⟨s, [], none⟩

/-- The query task `start` schedules (100 ms later): query the historical
`UserOperationEvent`s for the operation hash; when non-empty, run the
callback directly on the first result, else attach the live `once`
subscription. -/
def startQueryTask (l : UserOperationEventListener) (s : ListenerState) : StepOut :=
  match l.entryPoint with
  | none => ⟨s, [], some nullEntryPointError⟩
  | some ep =>
    match (ep.queryUserOperationEvent l.userOpHash).head? with
    | some e => listenerCallback l s e
    | none => ⟨{ s with listenerAttached := true }, [], none⟩

/-- A promise's settlement status. -/
inductive PromiseOutcome where
  | pending
  | fulfilled (r : TransactionReceipt)
  | rejected (msg : String)
  deriving DecidableEq, Repr

/-- One `resolve`/`reject` invocation against the promise: the first one
settles it, every later one is a no-op. -/
def settleOnce (p : PromiseOutcome) (a : SettleAction) : PromiseOutcome :=
  match p with
  | PromiseOutcome.pending =>
    match a with
    | SettleAction.resolveReceipt r => PromiseOutcome.fulfilled r
    | SettleAction.rejectError m => PromiseOutcome.rejected m
  | _ => p

/-- Apply an ordered trace of `resolve`/`reject` invocations to the
promise. -/
def applyActions (p : PromiseOutcome) (acts : List SettleAction) : PromiseOutcome :=
  acts.foldl settleOnce p

/-- The listener `Erc4337Provider.getTransactionReceipt` constructs: the
entry point is the literal `null /* this.entryPoint */`. -/
def getTransactionReceiptListener (sender userOpHash : String) : UserOperationEventListener :=
  { entryPoint := none, sender := sender, userOpHash := userOpHash }

/-- The settled outcome of the promise `Erc4337Provider.getTransactionReceipt`
returns: the executor constructs the listener (arming the timer) and calls
`start()`; an exception escaping the executor rejects the promise; later,
the timeout timer fires and its `reject` is applied to the promise. -/
def getTransactionReceiptOutcome (sender userOpHash : String) : PromiseOutcome :=
  let l := getTransactionReceiptListener sender userOpHash
  let s0 : ListenerState := {}
  let r := startSync l s0
  let p :=
    match r.thrown with
    | some e => applyActions (applyActions PromiseOutcome.pending r.acts) [SettleAction.rejectError e]
    | none => applyActions PromiseOutcome.pending r.acts
  let t := timerFired l r.state
  applyActions p t.acts

/-! ## Concrete fixtures

A sample wallet delegate, environments with registries of size zero, one
and two, a sample operation and transaction requests, and sample listener
configurations, used to evaluate the operations at concrete inputs. -/

def sampleWalletInfo : Erc4337WalletInfo where
  getAddress := "0xAbCd"
  getInitCode := "0xffee"
  getNonce := 7
  encodeCalldata := fun c => "0xca11" ++ c.to
  getSignatureForEstimateGas := fun _ => "0xe5716"
  signUserOp := fun _ => "0x5160"
  getPaymasterAndData := fun _ => "0x01"
  getPaymasterAndDataForEstimateGas := fun _ => "0x02"

def sampleEnv (registry : List String) : ProviderEnv where
  walletInfo := sampleWalletInfo
  supportedEntryPoints := registry
  getCode := fun _ => "0x"
  feeData := (100, 2)
  bundlerEstimate := fun _ _ => ⟨21000, some 33000, some 44000, 55000⟩

def sampleOp : UserOperation where
  sender := "0xAbCd"
  nonce := 7
  initCode := "0xffee"
  callData := "0xda7a"
  maxFeePerGas := 100
  maxPriorityFeePerGas := 2

/-- A request whose explicit sender differs (case-insensitively) from the
delegate-controlled address `0xAbCd`. -/
def sampleMismatchTx : TransactionRequest where
  «to» := some "0xD11"
  «from» := some "0xEEEE"
  value := some 42

def sampleReceipt : TransactionReceipt := ⟨"0x7a", "0xb10c"⟩

/-- Entry point with no revert-reason events (and no historical
settlement events). -/
def sampleEntryPoint : EntryPointContract where
  queryUserOperationEvent := fun _ => []
  queryRevertReason := fun _ _ _ => []

/-- Entry point reporting one matching revert-reason event. -/
def sampleEntryPointRevert : EntryPointContract where
  queryUserOperationEvent := fun _ => []
  queryRevertReason := fun _ _ _ => [⟨"0xbad"⟩]

def sampleListener : UserOperationEventListener where
  entryPoint := some sampleEntryPoint
  sender := "0xAbCd"
  userOpHash := "0xba5e"

def sampleListenerRevert : UserOperationEventListener where
  entryPoint := some sampleEntryPointRevert
  sender := "0xAbCd"
  userOpHash := "0xba5e"

/-- A matching settlement event with the given success flag. -/
def sampleEvent (success : Bool) : EventLog :=
  ⟨true, "0xba5e", "0xAbCd", 7, success, sampleReceipt⟩

/-! ## Helper lemmas -/

/-- Structural shape of a successful estimation: the operation handed back
to the caller is the input operation with exactly the three gas-limit
fields overwritten by the placeholder values. -/
theorem estimate_ok_userOperation (env : ProviderEnv) (op : UserOperation)
    (entryPointArg : Option String) (r : EstimateResult)
    (h : estimateUserOperationGas env op entryPointArg = Except.ok r) :
    r.userOperation = { op with
      callGasLimit := some 1000000,
      preVerificationGas := some 0,
      verificationGasLimit := some 1000000 } := by
  rw [estimateUserOperationGas] at h
  split at h
  · exact absurd h (by simp)
  · split at h
    · exact absurd h (by simp)
    · cases h; rfl

/-- A successful `sendTransaction` performed the sign step exactly once:
the delegate's `signUserOp` capability was invoked a single time. -/
theorem sendTransaction_ok_signUserOpCalls (env : ProviderEnv) (tx : TransactionRequest)
    (r : SendResult) (h : sendTransaction env tx = Except.ok r) :
    r.signUserOpCalls = 1 := by
  rw [sendTransaction] at h
  split at h
  · exact absurd h (by simp)
  · split at h
    · exact absurd h (by simp)
    · dsimp only at h
      split at h
      · exact absurd h (by simp)
      · cases h; rfl

/-! ## The claims -/

/-- Claim C3, evaluated at the failing input.  The claim states that
`estimateUserOperationGas` without an explicit entry point fails with the
AmbiguousEntryPoint error exactly when the registry has more than one
entry, and with the NoEntryPoint error exactly when the registry is empty.
The code diverges on the empty registry: the `length !== 1` guard fires
first, so an empty registry raises the AmbiguousEntryPoint error ('bundler
supports multiple EntryPoints - must specify one to use'), and the
NoEntryPoint assert ('bundler reported no supported EntryPoints') is
unreachable.  The first conjunct evaluates the failing input (empty
registry); the other two confirm the claim's behaviour for registries of
size two and one. -/
theorem estimateEntryPointResolutionDivergence :
    estimateUserOperationGas (sampleEnv []) sampleOp none
      = Except.error Erc4337Error.ambiguousEntryPoint
    ∧ estimateUserOperationGas (sampleEnv ["0xE1", "0xE2"]) sampleOp none
      = Except.error Erc4337Error.ambiguousEntryPoint
    ∧ (estimateUserOperationGas (sampleEnv ["0xE1"]) sampleOp none).map
        (fun r => r.entryPoint) = Except.ok "0xE1" :=
  ⟨rfl, rfl, rfl⟩

/-- Claim C5, counterexample.  The claim states that
`estimateUserOperationGas` sets all three gas-limit fields of the caller's
operation to non-zero placeholder values.  Evaluating at a registry of one
entry point: the resulting `preVerificationGas` placeholder is `some 0`,
so the non-zero property evaluates to `false` (the source executes
`userOperation.preVerificationGas = 0n`). -/
theorem estimateSetsZeroPreVerificationGas :
    (estimateUserOperationGas (sampleEnv ["0xE1"]) sampleOp none).map
      (fun r => (r.userOperation.preVerificationGas,
                 decide (r.userOperation.preVerificationGas ≠ some 0)))
      = Except.ok (some 0, false) :=
  rfl

/-- Claim C5, amended: `estimateUserOperationGas` sets `callGasLimit` and
`verificationGasLimit` of the passed-in operation to the non-zero sentinel
1000000 and `preVerificationGas` to the sentinel 0, and the mutation is
visible on the caller's operation (the `userOperation` component of the
result is the caller's operation after the call). -/
theorem estimateSetsPlaceholderGasLimits (env : ProviderEnv) (op : UserOperation)
    (entryPointArg : Option String) :
    (estimateUserOperationGas env op entryPointArg).map
      (fun r => (r.userOperation.callGasLimit, r.userOperation.verificationGasLimit,
                 r.userOperation.preVerificationGas))
    = (estimateUserOperationGas env op entryPointArg).map
      (fun _ => (some 1000000, some 1000000, some 0)) := by
  cases h : estimateUserOperationGas env op entryPointArg with
  | error e => rfl
  | ok r => rw [Except.map, Except.map, estimate_ok_userOperation env op entryPointArg r h]

/-- Claim C6: estimation never changes the operation's signature field —
whenever the call succeeds, the signature of the operation handed back to
the caller equals the signature it had before the call (the estimate-time
placeholder signature is assigned only to the draft copy). -/
theorem estimatePreservesSignature (env : ProviderEnv) (op : UserOperation)
    (entryPointArg : Option String) :
    (estimateUserOperationGas env op entryPointArg).map
      (fun r => r.userOperation.signature)
    = (estimateUserOperationGas env op entryPointArg).map
      (fun _ => op.signature) := by
  cases h : estimateUserOperationGas env op entryPointArg with
  | error e => rfl
  | ok r => rw [Except.map, Except.map, estimate_ok_userOperation env op entryPointArg r h]

/-- Claim C4: signing is single-shot.  An unsigned operation signs
successfully; any operation whose signature field is set (in particular
the operation produced by the send path's sign step
`userOperation.signature = await this.signUserOperation(...)`) fails the
sign step with the AlreadySigned error; and every successful
`sendTransaction` invokes the delegate's `signUserOp` exactly once. -/
theorem signingIsSingleShot (w : Erc4337WalletInfo) (op : UserOperation) :
    signUserOperation w { op with signature := none }
      = Except.ok (w.signUserOp { op with signature := none })
    ∧ (∀ sig : String, signUserOperation w { op with signature := some sig }
        = Except.error Erc4337Error.alreadySigned)
    ∧ ∀ (env : ProviderEnv) (tx : TransactionRequest),
        (sendTransaction env tx).map SendResult.signUserOpCalls
          = (sendTransaction env tx).map fun _ => 1 := by
  refine ⟨rfl, fun sig => rfl, fun env tx => ?_⟩
  cases h : sendTransaction env tx with
  | error e => rfl
  | ok r => rw [Except.map, Except.map, sendTransaction_ok_signUserOpCalls env tx r h]

/-- Claim C7, counterexample.  The claim states that populating a
`UserOperation` from a request whose explicit sender differs
(case-insensitively) from the delegate-controlled address fails with the
AddressMismatch error.  Evaluating `populateUserOperation` on such a
request (`from` is `0xEEEE`, the delegate address is `0xAbCd`, and their
lower-casings differ): the call succeeds — `populateUserOperation` never
reads the request's `from` field. -/
theorem populateSucceedsOnFromMismatch :
    sampleMismatchTx.from = some "0xEEEE"
    ∧ decide (toLowerString (resolveAddress "0xEEEE")
        ≠ toLowerString sampleWalletInfo.getAddress) = true
    ∧ (populateUserOperation (sampleEnv ["0xE1"]) sampleMismatchTx).toOption.isSome = true :=
  ⟨rfl, rfl, rfl⟩

/-- Claim C7, amended: the case-insensitive sender check is performed by
`Erc4337Signer.estimateGas`, which fails with the AddressMismatch error
before populating; `populateUserOperation` itself performs no sender check
and its result does not depend on the request's `from` field at all (so
the `sendTransaction` path never rejects a mismatched sender). -/
theorem addressMismatchCheckedInEstimateGasOnly (env : ProviderEnv)
    (tx : TransactionRequest) (f : String) (hf : tx.from = some f)
    (hne : toLowerString (resolveAddress f) ≠ toLowerString env.walletInfo.getAddress) :
    signerEstimateGas env tx = Except.error Erc4337Error.addressMismatch
    ∧ ∀ f' : Option String,
        populateUserOperation env { tx with «from» := f' } = populateUserOperation env tx := by
  constructor
  · simp only [signerEstimateGas, hf]
    rw [if_neg hne]
  · intro f'
    cases tx
    rfl

/-- Witness for the amended claim C7 at a concrete mismatching request. -/
theorem addressMismatchCheckedInEstimateGasOnly_witness :
    sampleMismatchTx.from = some "0xEEEE"
    ∧ toLowerString (resolveAddress "0xEEEE")
        ≠ toLowerString (sampleEnv ["0xE1"]).walletInfo.getAddress
    ∧ (signerEstimateGas (sampleEnv ["0xE1"]) sampleMismatchTx
        = Except.error Erc4337Error.addressMismatch
       ∧ ∀ f' : Option String,
           populateUserOperation (sampleEnv ["0xE1"]) { sampleMismatchTx with «from» := f' }
             = populateUserOperation (sampleEnv ["0xE1"]) sampleMismatchTx) :=
  ⟨rfl, by decide,
   addressMismatchCheckedInEstimateGasOnly (sampleEnv ["0xE1"]) sampleMismatchTx
     "0xEEEE" rfl (by decide)⟩

/-- Claim C8: serializing a numeric gas/fee value with `toJson` renders it
as the `0x`-prefixed hexadecimal string, and parsing that string back
yields the original value, for every value in the unsigned-256-bit
range. -/
theorem numericFieldRoundTrip (n : Nat) (_h : n < 2 ^ 256) :
    toJson (some n) = JsonValue.jstr ("0x" ++ natToHexString n)
    ∧ parseHexString ("0x" ++ natToHexString n) = some n :=
  ⟨rfl, parseHexString_natToHexString n⟩

/-- Witness for claim C8 at the largest unsigned-256-bit value. -/
theorem numericFieldRoundTrip_witness :
    2 ^ 256 - 1 < 2 ^ 256
    ∧ (toJson (some (2 ^ 256 - 1))
        = JsonValue.jstr ("0x" ++ natToHexString (2 ^ 256 - 1))
       ∧ parseHexString ("0x" ++ natToHexString (2 ^ 256 - 1)) = some (2 ^ 256 - 1)) :=
  ⟨by norm_num, numericFieldRoundTrip (2 ^ 256 - 1) (by norm_num)⟩

/-- Claim C9, counterexample.  The claim states that every missing
optional field — including `paymasterAndData` and `signature` when unset —
serializes as an explicit null value present in the output, never as an
omitted key.  Evaluating `toJSON` on an operation whose `signature` is
unset: the serialized object contains no `signature` key at all. -/
theorem unsetSignatureSerializesAsOmittedKey :
    sampleOp.signature = none
    ∧ sampleOp.paymasterAndData = none
    ∧ jsonLookup sampleOp.toJSON "signature" = none
    ∧ jsonLookup sampleOp.toJSON "paymasterAndData" = none :=
  ⟨rfl, rfl, rfl, rfl⟩

/-- Claim C9, amended: `toJSON` renders the integer gas/fee fields as
`0x`-prefixed hex strings, with an unset optional numeric field rendered
as an explicit JSON null; byte fields are copied verbatim (no lower-casing
is applied); and an unset `paymasterAndData` or `signature` is omitted
from the output entirely rather than rendered as null (a set one is
present verbatim). -/
theorem toJSONFieldRendering (op : UserOperation) :
    jsonLookup op.toJSON "nonce" = some (JsonValue.jstr ("0x" ++ natToHexString op.nonce))
    ∧ jsonLookup op.toJSON "maxFeePerGas"
        = some (JsonValue.jstr ("0x" ++ natToHexString op.maxFeePerGas))
    ∧ jsonLookup op.toJSON "maxPriorityFeePerGas"
        = some (JsonValue.jstr ("0x" ++ natToHexString op.maxPriorityFeePerGas))
    ∧ jsonLookup op.toJSON "callGasLimit" = some (toJson op.callGasLimit)
    ∧ jsonLookup op.toJSON "verificationGasLimit" = some (toJson op.verificationGasLimit)
    ∧ jsonLookup op.toJSON "preVerificationGas" = some (toJson op.preVerificationGas)
    ∧ jsonLookup op.toJSON "sender" = some (JsonValue.jstr op.sender)
    ∧ jsonLookup op.toJSON "initCode" = some (JsonValue.jstr op.initCode)
    ∧ jsonLookup op.toJSON "callData" = some (JsonValue.jstr op.callData)
    ∧ jsonLookup op.toJSON "paymasterAndData" = op.paymasterAndData.map JsonValue.jstr
    ∧ jsonLookup op.toJSON "signature" = op.signature.map JsonValue.jstr := by
  obtain ⟨sender, nonce, initCode, callData, mf, mp, cgl, vgl, pvg, pmd, sig⟩ := op
  cases pmd <;> cases sig <;>
    exact ⟨rfl, rfl, rfl, rfl, rfl, rfl, rfl, rfl, rfl, rfl, rfl⟩

/-- Claim C10: `Erc4337Provider.getTransactionReceipt` constructs its
listener with a null entry point, and the listener's `start` dereferences
that entry point unconditionally, so the executor throws and the returned
promise settles as rejected (with the null-dereference error) — it can
never fulfil with a receipt; the later timeout firing is a no-op on the
already-rejected promise. -/
theorem getTransactionReceiptAlwaysRejects (sender userOpHash : String) :
    (getTransactionReceiptListener sender userOpHash).entryPoint = none
    ∧ getTransactionReceiptOutcome sender userOpHash
        = PromiseOutcome.rejected nullEntryPointError :=
  ⟨rfl, rfl⟩

/-- Claim C1, evaluated at the failing input.  The claim states that once
the promise has been settled, no later timer firing invokes `resolve` or
`reject` again and all timers are released.  Evaluating a run in which a
matching successful settlement event is delivered before the timeout: the
callback settles the promise with the receipt, yet afterwards the timer is
still armed (the source never calls `clearTimeout`, and the `resolved`
flag it sets is never consulted), and when the timer fires it invokes
`reject('Timed out')` again. -/
theorem timerStillFiresAfterSettlement :
    applyActions PromiseOutcome.pending
        (listenerCallback sampleListener {} (sampleEvent true)).acts
      = PromiseOutcome.fulfilled sampleReceipt
    ∧ (listenerCallback sampleListener {} (sampleEvent true)).state.timerArmed = true
    ∧ (timerFired sampleListener
        (listenerCallback sampleListener {} (sampleEvent true)).state).acts
      = [SettleAction.rejectError "Timed out"] :=
  ⟨by decide, by decide, by decide⟩

/-- Claim C2, counterexample.  The claim states that when the settlement
event's success flag is false and no matching revert-reason event is
found, the tracker still transitions to Failed (with a generic
explanation) and in no case transitions to Resolved.  Evaluating a failed
settlement event against an entry point reporting no revert-reason
events: the callback's only settle action is `resolve(receipt)`, so the
promise fulfils with the receipt — the tracker transitions to Resolved,
not Failed. -/
theorem failedOpWithoutRevertEventResolves :
    (sampleEvent false).success = false
    ∧ sampleEntryPoint.queryRevertReason "0xba5e" "0xAbCd" sampleReceipt.blockHash = []
    ∧ (listenerCallback sampleListener {} (sampleEvent false)).acts
        = [SettleAction.resolveReceipt sampleReceipt]
    ∧ applyActions PromiseOutcome.pending
        (listenerCallback sampleListener {} (sampleEvent false)).acts
      = PromiseOutcome.fulfilled sampleReceipt :=
  ⟨rfl, rfl, by decide, by decide⟩

/-- Claim C2, amended: on a matching settlement event whose success flag
is false, the callback first runs `extractFailureReason`; when a matching
revert-reason event exists the promise is rejected with 'UserOp failed
with reason: ' + that reason (`reject` is invoked first, so it wins even
though `resolve(receipt)` is still invoked right afterwards); when none
exists, no `reject` is invoked and the promise fulfils with the receipt
(it transitions to Resolved, not to a generic Failed). -/
theorem failureSettlementOutcome (ep : EntryPointContract)
    (sender userOpHash : String) (nonce timeout : Option Nat) (s : ListenerState)
    (esender : String) (enonce : Nat) (receipt : TransactionReceipt) :
    (listenerCallback ⟨some ep, sender, userOpHash, nonce, timeout⟩ s
        ⟨true, userOpHash, esender, enonce, false, receipt⟩).acts
      = (match (ep.queryRevertReason userOpHash sender receipt.blockHash).head? with
         | some ev => [SettleAction.rejectError ("UserOp failed with reason: " ++ ev.revertReason),
                       SettleAction.resolveReceipt receipt]
         | none => [SettleAction.resolveReceipt receipt])
    ∧ applyActions PromiseOutcome.pending
        (listenerCallback ⟨some ep, sender, userOpHash, nonce, timeout⟩ s
          ⟨true, userOpHash, esender, enonce, false, receipt⟩).acts
      = (match (ep.queryRevertReason userOpHash sender receipt.blockHash).head? with
         | some ev => PromiseOutcome.rejected ("UserOp failed with reason: " ++ ev.revertReason)
         | none => PromiseOutcome.fulfilled receipt) := by
  rcases hq : (ep.queryRevertReason userOpHash sender receipt.blockHash).head? with _ | ev <;>
    simp [listenerCallback, extractFailureReason, stop, hq, applyActions, settleOnce]

end Erc4337
